import Mathlib

/-!
Verification of the swnumeric deferred-operation tensor/vector arithmetic
engine against its specification.

The development shallowly embeds the two container families of the
repository:

* the `Tensor`/`Vector`/`Matrix` family of `Tensor.hpp`
  (source file `src/unnamed/part_002`), and
* the `Vector`/`Matrix` family of `src/Libraries/Tensor/MatrixVector.hpp`.

Element buffers are modelled as `List Rat`; `double`/`float` arithmetic is
modelled exactly over `Rat` (a fused multiply-add is the exact `a * b + c`,
so "equal within one fused rounding step" becomes exact equality).
Allocation state is modelled by explicit records with abstract pointer
values, and fallible operations return `Except String`.
-/

namespace SwNumeric

/-! ## An index-aware map: the common shape of every elementwise loop

Every computational kernel in the source is a loop
`for (size_t i = 0; i < n; i++) a[i] = f(i, a[i]);`
over a contiguous buffer.  `idxMap f l` rewrites each element of `l`
through `f` applied to its index. -/

def idxMapGo (f : Nat → α → α) : Nat → List α → List α
  | _, [] => []
  | i, x :: xs => f i x :: idxMapGo f (i + 1) xs

def idxMap (f : Nat → α → α) (l : List α) : List α := idxMapGo f 0 l

theorem idxMapGo_length (f : Nat → α → α) (i : Nat) (l : List α) :
    (idxMapGo f i l).length = l.length := by
  induction l generalizing i with
  | nil => rfl
  | cons x xs ih => simp [idxMapGo, ih]

theorem idxMap_length (f : Nat → α → α) (l : List α) :
    (idxMap f l).length = l.length := idxMapGo_length f 0 l

theorem idxMapGo_getD (f : Nat → α → α) (i j : Nat) (l : List α) (d : α)
    (h : j < l.length) :
    (idxMapGo f i l).getD j d = f (i + j) (l.getD j d) := by
  induction l generalizing i j with
  | nil => simp at h
  | cons x xs ih =>
    cases j with
    | zero => simp [idxMapGo]
    | succ n =>
      simp only [idxMapGo, List.getD_cons_succ]
      rw [ih]
      · ring_nf
      · simpa using h

theorem idxMap_getD (f : Nat → α → α) (j : Nat) (l : List α) (d : α)
    (h : j < l.length) :
    (idxMap f l).getD j d = f j (l.getD j d) := by
  simpa using idxMapGo_getD f 0 j l d h

theorem idxMapGo_getElem? (f : Nat → α → α) (i j : Nat) (l : List α) :
    (idxMapGo f i l)[j]? = (l[j]?).map (f (i + j)) := by
  induction l generalizing i j with
  | nil => simp [idxMapGo]
  | cons x xs ih =>
    cases j with
    | zero => simp [idxMapGo]
    | succ n =>
      simp only [idxMapGo, List.getElem?_cons_succ]
      rw [ih]
      ring_nf

theorem idxMap_getElem? (f : Nat → α → α) (j : Nat) (l : List α) :
    (idxMap f l)[j]? = (l[j]?).map (f j) := by
  simpa using idxMapGo_getElem? f 0 j l

theorem idxMap_getElem (f : Nat → α → α) (l : List α) (j : Nat)
    (hj : j < l.length) (hj2 : j < (idxMap f l).length) :
    (idxMap f l)[j] = f j l[j] := by
  have h1 : (idxMap f l)[j]? = some (f j l[j]) := by
    rw [idxMap_getElem?, List.getElem?_eq_getElem hj]
    simp
  rw [List.getElem?_eq_getElem hj2] at h1
  exact Option.some.inj h1

/-! ## Elementwise atomic operations

Translations of the "NOBLAS ATOMIC OPERATIONS" helper templates, which are
identical in both families (part_002 lines 634-709, MatrixVector.hpp lines
518-593).  The first argument is the destination; each loop runs over the
destination's `size()`, so `idxMap` runs over the first list. -/

def addV (a b : List Rat) : List Rat := idxMap (fun i x => x + b.getD i 0) a

def addS (a : List Rat) (b : Rat) : List Rat := idxMap (fun _ x => x + b) a

def subV (a b : List Rat) : List Rat := idxMap (fun i x => x - b.getD i 0) a

def subS (a : List Rat) (b : Rat) : List Rat := idxMap (fun _ x => x - b) a

def subLeftV (a b : List Rat) : List Rat :=
  idxMap (fun i x => b.getD i 0 - x) a

def subLeftS (a : List Rat) (b : Rat) : List Rat :=
  idxMap (fun _ x => b - x) a

def mulV (a b : List Rat) : List Rat := idxMap (fun i x => x * b.getD i 0) a

def mulS (a : List Rat) (b : Rat) : List Rat := idxMap (fun _ x => x * b) a

def divV (a b : List Rat) : List Rat := idxMap (fun i x => x / b.getD i 0) a

def divS (a : List Rat) (b : Rat) : List Rat := idxMap (fun _ x => x / b) a

def divLeftV (a b : List Rat) : List Rat :=
  idxMap (fun i x => b.getD i 0 / x) a

def divLeftS (a : List Rat) (b : Rat) : List Rat :=
  idxMap (fun _ x => b / x) a

/-- Translation of `copyTo(a, b)`: `memcpy(a(), b(), a.size() * sizeof(T))`
copies the first `a.size()` elements of `b` over `a`. -/
def copyTo (a b : List Rat) : List Rat := idxMap (fun i _ => b.getD i 0) a

/-- Exact model of `std::fma(a, b, c)`: over `Rat` the single-rounding fused
multiply-add is exactly `a * b + c`. -/
def fmaQ (a b c : Rat) : Rat := a * b + c

/-- Model of `cblas_daxpy(n, alpha, x, incx, y, 1)` (and `cblas_saxpy`):
`y[i] += alpha * x[i*incx]` for `i < n`; elements of `y` at or past `n` are
untouched.  `incx = 0` broadcasts `x[0]`. -/
def daxpy (n : Nat) (alpha : Rat) (x : List Rat) (incx : Nat)
    (y : List Rat) : List Rat :=
  idxMap (fun i v => if i < n then v + alpha * x.getD (i * incx) 0 else v) y

/-- Model of a kernel loop `for (i = 0; i < n; i++) dest[i] = f(i, dest[i])`
(the fused-multiply-add kernels loop to `exp.vec.size()`, which need not be
the destination length; later elements are untouched). -/
def loopKernel (n : Nat) (f : Nat → Rat → Rat) (dest : List Rat) :
    List Rat :=
  idxMap (fun i d => if i < n then f i d else d) dest

/-- Model of `memcpy(dest, src, n * sizeof(T))` on element buffers: the
first `n` elements of `dest` are replaced by those of `src`. -/
def memcpyN (dest src : List Rat) (n : Nat) : List Rat :=
  idxMap (fun i x => if i < n then src.getD i 0 else x) dest

/-- Model of `setConstant(v)` / `std::fill_n(ptr(), size(), v)` over the
whole buffer. -/
def fillConst (dest : List Rat) (v : Rat) : List Rat :=
  idxMap (fun _ _ => v) dest

/-! ## Operator tags

`enum class OPType { Add, Sub, SubLeft, Mul, Div, DivLeft, Assign }` splits
into the six source tags a scalar-combine descriptor can carry and the five
destination-combining tags. -/

inductive SrcOp
  | add
  | sub
  | subLeft
  | mul
  | div
  | divLeft
deriving DecidableEq, Repr

inductive DestOp
  | assign
  | addInto
  | subInto
  | mulInto
  | divInto
deriving DecidableEq, Repr

/-- Source tags a container-combine (`VVOP`) descriptor can carry: the
binary operators between two vectors (no reversed forms arise). -/
inductive VSrc
  | add
  | sub
  | mul
  | div
deriving DecidableEq, Repr

/-- Written from the spec's words, for the refinement comparison: the
defining formula `R[i]` of a scalar-combine source tag on operand value `v`
and scalar `s` (e.g. source `SubReversed` means `R[i] = scalar - vec[i]`). -/
def srcFormula : SrcOp → Rat → Rat → Rat
  | .add, v, s => v + s
  | .sub, v, s => v - s
  | .subLeft, v, s => s - v
  | .mul, v, s => v * s
  | .div, v, s => v / s
  | .divLeft, v, s => s / v

/-- Written from the spec's words: the destination update formula for each
destination-combining tag, given prior destination value `d` and descriptor
value `r`. -/
def destCombine : DestOp → Rat → Rat → Rat
  | .assign, _, r => r
  | .addInto, d, r => d + r
  | .subInto, d, r => d - r
  | .mulInto, d, r => d * r
  | .divInto, d, r => d / r

/-- Written from the spec's words: the container-combine defining formula
`R[i]` for lhs value `x` and rhs value `y`. -/
def vsrcFormula : VSrc → Rat → Rat → Rat
  | .add, x, y => x + y
  | .sub, x, y => x - y
  | .mul, x, y => x * y
  | .div, x, y => x / y

/-- Written from the spec's words: the naive two-pass reference evaluation
for a scalar-combine expression — materialize `tmp[i] = vec[i] SRC s`
fully, then apply `dest[i] = dest[i] DEST tmp[i]` elementwise. -/
def specTwoPass (src : SrcOp) (dst : DestOp) (dest vec : List Rat)
    (s : Rat) : List Rat :=
  let tmp := idxMap (fun i _ => srcFormula src (vec.getD i 0) s) vec
  idxMap (fun i d => destCombine dst d (tmp.getD i 0)) dest

/-- Written from the spec's words: the naive two-pass reference evaluation
for a container-combine expression. -/
def specTwoPassVV (src : VSrc) (dst : DestOp) (dest lhs rhs : List Rat) :
    List Rat :=
  let tmp := idxMap (fun i _ => vsrcFormula src (lhs.getD i 0) (rhs.getD i 0)) lhs
  idxMap (fun i d => destCombine dst d (tmp.getD i 0)) dest

/-! ## The scalar-combine kernel table (`STOPImpl` / `SVOPImpl`)

Translation of the `double` specialization of `impl::STOPImpl<double, src,
dst>` from part_002 lines 991-1319 (the `float` table and the
`SVOPImpl<double, ...>` table of MatrixVector.hpp are line-for-line the
same kernels).  `dest = exp.vec` inside the Assign kernels is the checked
container assignment; at buffer level (shapes equal on this path) it is the
`memcpy` of `vec.length` elements. -/

def STOPImplDouble (src : SrcOp) (dst : DestOp) (dest vec : List Rat)
    (s : Rat) : List Rat :=
  match src, dst with
  | .add, .addInto => daxpy vec.length 1 [s] 0 (daxpy vec.length 1 vec 1 dest)
  | .sub, .addInto => daxpy vec.length 1 [-s] 0 (daxpy dest.length 1 vec 1 dest)
  | .subLeft, .addInto => daxpy vec.length 1 [s] 0 (daxpy dest.length (-1) vec 1 dest)
  | .mul, .addInto => loopKernel vec.length (fun i d => fmaQ s (vec.getD i 0) d) dest
  | .div, .addInto => loopKernel vec.length (fun i d => fmaQ (1 / s) (vec.getD i 0) d) dest
  | .divLeft, .addInto => loopKernel vec.length (fun i d => fmaQ s (1 / vec.getD i 0) d) dest
  | .add, .subInto => daxpy vec.length 1 [-s] 0 (daxpy vec.length (-1) vec 1 dest)
  | .sub, .subInto => daxpy vec.length 1 [s] 0 (daxpy vec.length (-1) vec 1 dest)
  | .subLeft, .subInto => daxpy vec.length 1 [-s] 0 (daxpy vec.length 1 vec 1 dest)
  | .mul, .subInto => loopKernel vec.length (fun i d => fmaQ (-s) (vec.getD i 0) d) dest
  | .div, .subInto => loopKernel vec.length (fun i d => fmaQ (-1 / s) (vec.getD i 0) d) dest
  | .divLeft, .subInto => loopKernel vec.length (fun i d => fmaQ (-s) (1 / vec.getD i 0) d) dest
  | .add, .mulInto => loopKernel vec.length (fun i d => fmaQ d (vec.getD i 0) (d * s)) dest
  | .sub, .mulInto => loopKernel vec.length (fun i d => fmaQ d (vec.getD i 0) (-d * s)) dest
  | .subLeft, .mulInto => loopKernel vec.length (fun i d => fmaQ d (-(vec.getD i 0)) (d * s)) dest
  | .mul, .mulInto => mulV (mulS dest s) vec
  | .div, .mulInto => mulV (divS dest s) vec
  | .divLeft, .mulInto => mulS (divV dest vec) s
  | .add, .divInto => loopKernel vec.length (fun i d => d / (vec.getD i 0 + s)) dest
  | .sub, .divInto => loopKernel vec.length (fun i d => d / (vec.getD i 0 - s)) dest
  | .subLeft, .divInto => loopKernel vec.length (fun i d => d / (s - vec.getD i 0)) dest
  | .mul, .divInto => divV (divS dest s) vec
  | .div, .divInto => divV (mulS dest s) vec
  | .divLeft, .divInto => divS (mulV dest vec) s
  | .add, .assign => daxpy vec.length 1 [s] 0 (memcpyN dest vec vec.length)
  | .sub, .assign => daxpy vec.length 1 [-s] 0 (memcpyN dest vec vec.length)
  | .subLeft, .assign => daxpy vec.length 1 [s] 0 (mulS (memcpyN dest vec vec.length) (-1))
  | .mul, .assign => mulS (memcpyN dest vec vec.length) s
  | .div, .assign => divS (memcpyN dest vec vec.length) s
  | .divLeft, .assign => divV (fillConst dest s) vec

/-! ## The container-combine kernel table (`VVOPImpl`)

Translation of the generic `impl::VVOPImpl<T, sa, sb, src, dst>` kernels of
MatrixVector.hpp lines 929-1139.  The `(Sub, Mul)` entry (lines 1026-1035)
reads `dest[i] = std::fma(dest[i], exp.lhs[i], -dest[i] * exp.rhs)`: the
missing `[i]` makes `-dest[i] * exp.rhs` a deferred `SVOP` descriptor, for
which `std::fma` has no viable overload, so every instantiation of that
kernel is ill-formed; it is modelled as `none`. -/

def VVOPImplGen (src : VSrc) (dst : DestOp) (dest lhs rhs : List Rat) :
    Option (List Rat) :=
  match src, dst with
  | .add, .addInto => some (addV (addV dest lhs) rhs)
  | .sub, .addInto => some (subV (addV dest lhs) rhs)
  | .mul, .addInto =>
      some (loopKernel lhs.length
        (fun i d => fmaQ (lhs.getD i 0) (rhs.getD i 0) d) dest)
  | .div, .addInto =>
      some (loopKernel lhs.length
        (fun i d => fmaQ (1 / rhs.getD i 0) (lhs.getD i 0) d) dest)
  | .add, .subInto => some (subV (subV dest lhs) rhs)
  | .sub, .subInto => some (addV (subV dest lhs) rhs)
  | .mul, .subInto =>
      some (loopKernel lhs.length
        (fun i d => fmaQ (-(lhs.getD i 0)) (rhs.getD i 0) d) dest)
  | .div, .subInto =>
      some (loopKernel lhs.length
        (fun i d => fmaQ (-1 / rhs.getD i 0) (lhs.getD i 0) d) dest)
  | .add, .mulInto =>
      some (loopKernel lhs.length
        (fun i d => fmaQ d (lhs.getD i 0) (d * rhs.getD i 0)) dest)
  | .sub, .mulInto => none
  | .mul, .mulInto => some (mulV (mulV dest lhs) rhs)
  | .div, .mulInto => some (mulV (divV dest rhs) lhs)
  | .add, .divInto =>
      some (loopKernel lhs.length
        (fun i d => d / (lhs.getD i 0 + rhs.getD i 0)) dest)
  | .sub, .divInto =>
      some (loopKernel lhs.length
        (fun i d => d / (lhs.getD i 0 - rhs.getD i 0)) dest)
  | .mul, .divInto => some (divV (divV dest lhs) rhs)
  | .div, .divInto => some (divV (mulV dest rhs) lhs)
  | .add, .assign => some (addV (copyTo dest lhs) rhs)
  | .sub, .assign => some (subV (copyTo dest lhs) rhs)
  | .mul, .assign => some (mulV (copyTo dest lhs) rhs)
  | .div, .assign => some (divV (copyTo dest lhs) rhs)

/-! ## Dispatched operators of the Tensor family used by the claims

Concrete translations of individual operators of part_002 needed below. -/

/-- Translation of `checkShape` (part_002 lines 135-156): differing
dimension counts raise a dimension error, elementwise differing extents a
size-mismatch error.  With equal lengths the elementwise comparison is list
equality. -/
def checkShape (a b : List Nat) : Except String Unit :=
  if a.length ≠ b.length then .error "DIMENSION ERROR"
  else if a = b then .ok () else .error "SIZE MISMATCH ERROR"

/-- Translation of the `double` branch of `Tensor::operator-=(const T&)`
(part_002 lines 1719-1726): `cblas_daxpy(size(), -1.0, {a}, 0, ptr(), 1)`. -/
def tensorSubAssignScalarD (t : List Rat) (a : Rat) : List Rat :=
  daxpy t.length (-1) [a] 0 t

/-- Translation of the generic fallback branch of
`Tensor::operator-=(const T&)` (part_002 line 1728): it calls
`add(*this, a)`. -/
def tensorSubAssignScalarGen (t : List Rat) (a : Rat) : List Rat :=
  addS t a

/-- Translation of `Tensor::operator-=(const Tensor&)` for `double`
(part_002 lines 1705-1717): `checkShape`, then
`cblas_daxpy(size(), -1.0, a.ptr(), 1, ptr(), 1)`. -/
def tensorSubAssignTensorD (tshape : List Nat) (t : List Rat)
    (ashape : List Nat) (a : List Rat) : Except String (List Rat) := do
  checkShape tshape ashape
  .ok (daxpy t.length (-1) a 1 t)

/-- Translation of `Tensor::operator-=(const Tensor&)` for a generic
element type (part_002 lines 1705-1717): `checkShape`, then the `else`
branch calls `add(*this, a)`. -/
def tensorSubAssignTensorGen (tshape : List Nat) (t : List Rat)
    (ashape : List Nat) (a : List Rat) : Except String (List Rat) := do
  checkShape tshape ashape
  .ok (addV t a)

/-- Translation of the Tensor-family `operator/=(const T&)`
(part_002 lines 1773-1777): `div(*this, a)` for every element type. -/
def tensorDivAssignScalar (t : List Rat) (a : Rat) : List Rat :=
  divS t a

/-- Translation of `operator-(const T& b, const Vector<sz, T>& a)` of the
Tensor family (part_002 lines 1867-1872) for `double` elements:
`Vector c = a; c -= b; return c;` — the compound subtraction is the
`daxpy(-1)` scalar path. -/
def vectorScalarMinusVector (b : Rat) (a : List Rat) : List Rat :=
  tensorSubAssignScalarD a b

/-- Translation of `operator/(const T& b, const Vector<sz, T>& a)` of the
Tensor family (part_002 lines 1881-1886): `Vector c = a; c /= b;`. -/
def vectorScalarDivVector (b : Rat) (a : List Rat) : List Rat :=
  tensorDivAssignScalar a b

/-! ## MatrixVector-family Vector operators used by the claims -/

/-- Translation of `Vector::operator+=(const Vector<sa, T>&)` of
MatrixVector.hpp lines 370-375: it performs NO size check and calls
`add(*this, a)` directly (its siblings `-=`, `*=`, `/=` run
`_LINALG_SELFVEC_SIZECHECK` first). -/
def mvVecAddAssignVec (dest a : List Rat) : List Rat :=
  addV dest a

/-- Translation of `Vector::operator-=(const Vector<sa, T>&)` of
MatrixVector.hpp lines 400-406: `_LINALG_SELFVEC_SIZECHECK` — throwing
`"ERROR IN SIZE CHECK"` on mismatch — then `sub(*this, a)`. -/
def mvVecSubAssignVec (dest a : List Rat) : Except String (List Rat) :=
  if dest.length ≠ a.length then .error "ERROR IN SIZE CHECK"
  else .ok (subV dest a)

/-- Translation of the container-combine descriptor builders
`operator+`/`-`/`*`/`/ (Vector, Vector)` of MatrixVector.hpp lines 344-366:
`_LINALG_VECVEC_SIZECHECK` runs at descriptor construction and the
descriptor just records the two operands with the tag. -/
def mvMakeVVOP (op : VSrc) (a b : List Rat) :
    Except String (VSrc × List Rat × List Rat) :=
  if a.length ≠ b.length then .error "ERROR IN SIZE CHECK"
  else .ok (op, a, b)

/-! ## State model of the Tensor family (part_002)

A `Tensor<T, dims...>` holds a union of a heap pointer and an inline
buffer, a `data` pointer (`nullptr` until allocated), `_size`, and
`_shape`.  Pointers are abstract: `Ptr.static` is the address of the
object's inline buffer, `Ptr.heap a` an address returned by
`std::aligned_alloc`.  `store` is the contents of the buffer `data` points
at (meaningful while `dataPtr ≠ Ptr.null`). -/

inductive Ptr
  | null
  | static
  | heap (adr : Nat)
deriving DecidableEq, Repr

structure TensorState where
  ctDims : List Nat
  heapMem : Ptr
  dataPtr : Ptr
  store : List Rat
  size : Nat
  shape : List Nat
deriving DecidableEq, Repr

/-- Compile-time size `_ctSize`: the product of the `dims...` pack (the
fold starts at 1, so a rank-0 pack gives 1; any zero extent gives 0,
meaning runtime-sized). -/
def TensorState.ctSize (t : TensorState) : Nat := t.ctDims.prod

/-- Translation of `isAlloced()`: `static_cast<bool>(data)`. -/
def TensorState.isAlloced (t : TensorState) : Bool := t.dataPtr ≠ Ptr.null

/-- Translation of `Tensor::alloc` (part_002 lines 192-218).  If already
allocated it returns immediately.  Otherwise the compile-time-sized branch
installs the inline buffer and the compile-time shape; the dynamic branch
computes the element count, obtains an aligned buffer (`fresh` is the
address `std::aligned_alloc` returns; `ok = false` models allocation
failure, which throws `std::bad_alloc`).  Both branches end with
`std::fill_n(data, _size, T(0.0))`. -/
def tensorAlloc (t : TensorState) (sh : List Nat) (fresh : Nat)
    (ok : Bool) : Except String TensorState :=
  if t.isAlloced then .ok t
  else if t.ctSize > 0 then
    .ok { t with shape := t.ctDims, size := t.ctSize, dataPtr := Ptr.static,
                 store := List.replicate t.ctSize 0 }
  else if ok then
    .ok { t with shape := sh, size := sh.prod,
                 heapMem := Ptr.heap fresh, dataPtr := Ptr.heap fresh,
                 store := List.replicate sh.prod 0 }
  else .error "std::bad_alloc"

/-- Translation of `Tensor::free` (part_002 lines 338-346).  The dynamic
branch calls `std::free(dataHolder.heapData)` — the second component
records the pointer passed to `std::free` (`none` when the compile-time
branch skips the call).  Note that `dataHolder.heapData` itself is NOT
nulled; only `data`, `_size` and `_shape` are reset. -/
def tensorFree (t : TensorState) : TensorState × Option Ptr :=
  (({ t with dataPtr := Ptr.null, size := 0, shape := [] }),
   if t.ctSize > 0 then none else some t.heapMem)

/-- Translation of the trailing `memcpy(ptr(), other.ptr(), sizeof(T) *
other.size())` of the container assignment operators. -/
def memcpyInto (t other : TensorState) : TensorState :=
  { t with store := memcpyN t.store other.store other.size }

/-- Translation of the same-type `Tensor::operator=(const Tensor<T,
dims...>&)` (part_002 lines 268-276): if allocated, `checkShape(shape(),
other.shape())`; otherwise `alloc(other.shape())`; then the `memcpy`. -/
def tensorAssign (t other : TensorState) (fresh : Nat) (ok : Bool) :
    Except String TensorState :=
  if t.isAlloced then do
    checkShape t.shape other.shape
    .ok (memcpyInto t other)
  else do
    let t1 ← tensorAlloc t other.shape fresh ok
    .ok (memcpyInto t1 other)

/-- Translation of the cross-signature `Tensor::operator=(const Tensor<T,
ddims...>&)` (part_002 lines 261-266): unconditional `checkShape`, then
`memcpy`. -/
def tensorAssignCross (t other : TensorState) : Except String TensorState := do
  checkShape t.shape other.shape
  .ok (memcpyInto t other)

/-- Translation of `t[i] = v`: `operator[]` hands out a reference into the
buffer `data` points at. -/
def TensorState.setElem (t : TensorState) (i : Nat) (v : Rat) : TensorState :=
  { t with store := t.store.set i v }

/-- Modelled initial state of a freshly constructed `Tensor` before its
constructor body runs: the member initializers give `data = nullptr` and
`_size = 0`; `_shape` and the union are indeterminate (idealized below as
`[]` and `Ptr.null`; no verified path reads them before writing them). -/
def blankTensor (ctDims : List Nat) : TensorState :=
  ⟨ctDims, Ptr.null, Ptr.null, [], 0, []⟩

/-- Translation of the default constructor `Tensor()` (part_002 lines
281-283): for a compile-time-sized tensor it calls `alloc({})` (the shape
argument is ignored on that branch); a dynamic tensor stays unallocated. -/
def tensorNew (ctDims : List Nat) : Except String TensorState :=
  if ctDims.prod > 0 then tensorAlloc (blankTensor ctDims) [] 0 true
  else .ok (blankTensor ctDims)

/-- Translation of the copy constructor `Tensor(const Tensor&)` (part_002
lines 285-288): delegate to `Tensor()`, then `alloc(other.shape())`, then
`(*this) = other`. -/
def tensorCopy (other : TensorState) (fresh : Nat) (ok : Bool) :
    Except String TensorState := do
  let t0 ← tensorNew other.ctDims
  let t1 ← tensorAlloc t0 other.shape fresh ok
  tensorAssign t1 other fresh ok

/-- Translation of the move constructor `Tensor(Tensor&&)` (part_002 lines
290-307).  Static case: the new object's `data` is its own inline buffer
and the inline contents are copied (`memcpy` of `_ctSize` elements); the
union's heap view is unused.  Dynamic case: the heap pointer is taken over
and the source's `heapData` is nulled.  In both cases the source ends with
`data = nullptr`, `_size = 0`, `_shape = {}`. -/
def tensorMove (other : TensorState) : TensorState × TensorState :=
  if other.ctSize > 0 then
    (⟨other.ctDims, Ptr.null, Ptr.static, other.store, other.size,
      other.shape⟩,
     { other with dataPtr := Ptr.null, size := 0, shape := [] })
  else
    (⟨other.ctDims, other.heapMem, other.dataPtr, other.store, other.size,
      other.shape⟩,
     { other with heapMem := Ptr.null, dataPtr := Ptr.null, size := 0,
                  shape := [] })

/-- Translation of the move assignment `Tensor::operator=(Tensor&&)`
(part_002 lines 310-335; both sides have the same type, hence the same
`dims...`): `free()` the current resources, then move size, shape and
buffer exactly as the move constructor does, leaving the source empty. -/
def tensorMoveAssign (t other : TensorState) : TensorState × TensorState :=
  let t1 := (tensorFree t).1
  if t1.ctSize > 0 then
    ({ t1 with dataPtr := Ptr.static, store := other.store,
               size := other.size, shape := other.shape },
     { other with dataPtr := Ptr.null, size := 0, shape := [] })
  else
    ({ t1 with heapMem := other.heapMem, dataPtr := other.heapMem,
               size := other.size, shape := other.shape,
               store := other.store },
     { other with heapMem := Ptr.null, dataPtr := Ptr.null, size := 0,
                  shape := [] })

/-! ## State model of the MatrixVector storage backend -/

def mvAlignment : Nat := 16

/-- Element size used by the storage arithmetic for `double` elements. -/
def sizeofDouble : Nat := 8

/-- Model of `impl::ContiguousStorage<double, 0>` (MatrixVector.hpp lines
43-77): dynamic storage with `_len`, `_alloced_size` and a uniquely owned
pointer.  `store` is the pointed-at contents. -/
structure MVStorage where
  len : Nat
  allocedSize : Nat
  dataPtr : Option Nat
  store : List Rat
deriving DecidableEq, Repr

/-- Translation of `ContiguousStorage<T, 0>::alloc(len)` (lines 48-60):
`_len` and `_alloced_size` are set BEFORE the allocation attempt; on
success the unique pointer is reset to the fresh buffer (whose contents
`freshContents` are indeterminate — `aligned_alloc` does not zero) and
`true` is returned; on failure the function returns `false` with `_len`
already overwritten. -/
def mvAlloc (st : MVStorage) (n : Nat) (fresh : Nat)
    (freshContents : List Rat) (ok : Bool) : MVStorage × Bool :=
  let st1 := { st with
    len := n,
    allocedSize := mvAlignment * ((n * sizeofDouble + mvAlignment - 1) / mvAlignment) }
  if ok then ({ st1 with dataPtr := some fresh, store := freshContents }, true)
  else (st1, false)

/-- Translation of `ContiguousStorage<T, 0>::isAlloc()`:
`static_cast<bool>(_len)`. -/
def mvIsAlloc (st : MVStorage) : Bool := st.len ≠ 0

/-- Translation of `Vector::alloc(len)` (MatrixVector.hpp lines 200-202):
it forwards to the storage `alloc` and DISCARDS the returned `bool`. -/
def mvVecAlloc (st : MVStorage) (n : Nat) (fresh : Nat)
    (freshContents : List Rat) (ok : Bool) : MVStorage :=
  (mvAlloc st n fresh freshContents ok).1

/-- Model of the fixed-size `impl::ContiguousStorage<T, size>`
(MatrixVector.hpp lines 20-39): an inline buffer `T _data[size] = {};`
(value-initialized to zeros). -/
structure MVFixed where
  data : List Rat
deriving DecidableEq, Repr

/-- Translation of the fixed-size `alloc(len)` (line 28): `return true;` —
a guaranteed no-op. -/
def mvFixedAlloc (st : MVFixed) (_n : Nat) : MVFixed × Bool := (st, true)

/-- Default-constructed fixed-size storage of `size` elements: the member
initializer `T _data[size] = {}` value-initializes the buffer. -/
def mvFixedNew (size : Nat) : MVFixed := ⟨List.replicate size 0⟩

/-! ## Supporting lemmas -/

theorem list_ext_getD (a b : List Rat) (hlen : a.length = b.length)
    (h : ∀ j, j < a.length → a.getD j 0 = b.getD j 0) : a = b := by
  induction a generalizing b with
  | nil => cases b with
    | nil => rfl
    | cons y ys => simp at hlen
  | cons x xs ih =>
    cases b with
    | nil => simp at hlen
    | cons y ys =>
      have h0 := h 0 (by simp)
      simp only [List.getD_cons_zero] at h0
      have htl : xs = ys := by
        refine ih ys (by simpa using hlen) ?_
        intro j hj
        have := h (j + 1) (by simpa using Nat.succ_lt_succ hj)
        simpa using this
      rw [h0, htl]

theorem memcpyN_length (dest src : List Rat) (n : Nat) :
    (memcpyN dest src n).length = dest.length := by
  simp [memcpyN, idxMap_length]

/-- Copying `n = src.length` elements over a buffer of the same length
reproduces `src` exactly. -/
theorem memcpyN_all (dest src : List Rat) (n : Nat)
    (h1 : dest.length = n) (h2 : src.length = n) :
    memcpyN dest src n = src := by
  refine list_ext_getD _ _ (by rw [memcpyN_length, h1, h2]) ?_
  intro j hj
  rw [memcpyN_length, h1] at hj
  rw [memcpyN, idxMap_getD _ _ _ _ (by rw [h1]; exact hj)]
  simp [hj]

/-! ## Fusion equivalence of the kernel tables

Every scalar-combine kernel, and every well-formed container-combine
kernel, agrees exactly (over `Rat`) with the naive materialize-then-combine
reference on same-shape operands. -/

theorem specTwoPass_length (src : SrcOp) (dst : DestOp) (dest vec : List Rat)
    (s : Rat) : (specTwoPass src dst dest vec s).length = dest.length := by
  simp [specTwoPass, idxMap_length]

theorem STOP_fused_eq_twoPass (src : SrcOp) (dst : DestOp)
    (dest vec : List Rat) (s : Rat) (h : vec.length = dest.length) :
    STOPImplDouble src dst dest vec s = specTwoPass src dst dest vec s := by
  cases src <;> cases dst <;>
    (refine list_ext_getD _ _
      (by simp [STOPImplDouble, specTwoPass, daxpy, loopKernel, memcpyN,
        fillConst, addV, addS, subV, subS, subLeftV, subLeftS, mulV, mulS,
        divV, divS, divLeftV, divLeftS, copyTo, idxMap_length])
      fun j hj => ?_) <;>
    (have hjd : j < dest.length := by
      simpa [STOPImplDouble, daxpy, loopKernel, memcpyN, fillConst, addV,
        addS, subV, subS, subLeftV, subLeftS, mulV, mulS, divV, divS,
        divLeftV, divLeftS, copyTo, idxMap_length] using hj) <;>
    (have hjv : j < vec.length := by rw [h]; exact hjd) <;>
    (simp [STOPImplDouble, specTwoPass, daxpy, loopKernel, memcpyN,
      fillConst, addV, addS, subV, subS, subLeftV, subLeftS, mulV, mulS,
      divV, divS, divLeftV, divLeftS, copyTo, idxMap_length, idxMap_getElem,
      idxMap_getElem?, List.getElem?_eq_getElem, hjd, hjv, h, fmaQ,
      srcFormula, destCombine]) <;>
    (try (first
      | ring1
      | (rw [div_div_eq_mul_div]; try ring1)))

theorem VVOP_fused_eq_twoPass (src : VSrc) (dst : DestOp)
    (dest lhs rhs : List Rat) (hL : lhs.length = dest.length)
    (hR : rhs.length = dest.length) :
    ∀ r, VVOPImplGen src dst dest lhs rhs = some r →
      r = specTwoPassVV src dst dest lhs rhs := by
  intro r hr
  cases src <;> cases dst <;> simp only [VVOPImplGen] at hr <;>
    first
    | exact Option.noConfusion hr
    | (cases Option.some.inj hr
       refine list_ext_getD _ _
         (by simp [specTwoPassVV, loopKernel, addV, subV, mulV, divV,
           copyTo, idxMap_length])
         fun j hj => ?_
       have hjd : j < dest.length := by
         simpa [loopKernel, addV, subV, mulV, divV, copyTo,
           idxMap_length] using hj
       have hjl : j < lhs.length := by rw [hL]; exact hjd
       have hjr : j < rhs.length := by rw [hR]; exact hjd
       simp [specTwoPassVV, loopKernel, addV, subV, mulV, divV, copyTo,
         idxMap_length, idxMap_getElem, idxMap_getElem?,
         List.getElem?_eq_getElem, hjd, hjl, hjr, hL, hR, fmaQ,
         vsrcFormula, destCombine]
       try (first
         | ring1
         | (rw [div_div_eq_mul_div]; try ring1)))

/-- Witness exercising the fused-vs-two-pass agreement at concrete data
for a sample of entries. -/
theorem STOP_fused_eq_twoPass_sample :
    STOPImplDouble SrcOp.divLeft DestOp.divInto [6, 8] [2, 4] 12 =
      specTwoPass SrcOp.divLeft DestOp.divInto [6, 8] [2, 4] 12 :=
  STOP_fused_eq_twoPass SrcOp.divLeft DestOp.divInto [6, 8] [2, 4] 12 rfl

/-! ## Step lemmas for the Tensor state model -/

theorem checkShape_ok (a b : List Nat) (h : a = b) :
    checkShape a b = .ok () := by
  rw [checkShape, if_neg (by simp [h]), if_pos h]

theorem checkShape_mismatch (a b : List Nat) (hl : a.length = b.length)
    (h : a ≠ b) : checkShape a b = .error "SIZE MISMATCH ERROR" := by
  rw [checkShape, if_neg (by simp [hl]), if_neg h]

theorem tensorAlloc_noop (t : TensorState) (sh : List Nat) (fresh : Nat)
    (ok : Bool) (h : t.isAlloced = true) :
    tensorAlloc t sh fresh ok = .ok t := by
  rw [tensorAlloc, if_pos h]

theorem tensorAlloc_static (t : TensorState) (sh : List Nat) (fresh : Nat)
    (ok : Bool) (h1 : t.isAlloced = false) (h2 : 0 < t.ctSize) :
    tensorAlloc t sh fresh ok =
      .ok { t with shape := t.ctDims, size := t.ctSize,
                   dataPtr := Ptr.static,
                   store := List.replicate t.ctSize 0 } := by
  rw [tensorAlloc, if_neg (by simp [h1]), if_pos h2]

theorem tensorAlloc_dynamic (t : TensorState) (sh : List Nat) (fresh : Nat)
    (h1 : t.isAlloced = false) (h2 : t.ctSize = 0) :
    tensorAlloc t sh fresh true =
      .ok { t with shape := sh, size := sh.prod,
                   heapMem := Ptr.heap fresh, dataPtr := Ptr.heap fresh,
                   store := List.replicate sh.prod 0 } := by
  rw [tensorAlloc, if_neg (by simp [h1]), if_neg (by simp [h2]), if_pos rfl]

theorem tensorAlloc_failed (t : TensorState) (sh : List Nat) (fresh : Nat)
    (h1 : t.isAlloced = false) (h2 : t.ctSize = 0) :
    tensorAlloc t sh fresh false = .error "std::bad_alloc" := by
  rw [tensorAlloc, if_neg (by simp [h1]), if_neg (by simp [h2]),
    if_neg (by simp)]

theorem memcpyInto_full (t other : TensorState)
    (h1 : t.store.length = other.size)
    (h2 : other.store.length = other.size) :
    memcpyInto t other = { t with store := other.store } := by
  rw [memcpyInto, memcpyN_all _ _ _ h1 h2]

theorem tensorAssign_matching (t other : TensorState) (fresh : Nat)
    (ok : Bool) (h : t.isAlloced = true) (hsh : t.shape = other.shape) :
    tensorAssign t other fresh ok = .ok (memcpyInto t other) := by
  simp only [tensorAssign, if_pos h, checkShape_ok _ _ hsh, Bind.bind,
    Except.bind]

theorem tensorAssign_mismatch (t other : TensorState) (fresh : Nat)
    (ok : Bool) (h : t.isAlloced = true)
    (hl : t.shape.length = other.shape.length) (hne : t.shape ≠ other.shape) :
    tensorAssign t other fresh ok = .error "SIZE MISMATCH ERROR" := by
  simp only [tensorAssign, if_pos h, checkShape_mismatch _ _ hl hne,
    Bind.bind, Except.bind]

theorem tensorNew_dynamic (cd : List Nat) (h : cd.prod = 0) :
    tensorNew cd = .ok (blankTensor cd) := by
  rw [tensorNew, if_neg (by simp [h])]

/-! ## Claim theorems -/

/-- C1: the fused dispatch kernels agree with the naive two-pass
evaluation on the concrete scenario — with every element of `b` preset to
1.0 and every element of `a` equal to 2.0, `b += (a * 4.0)` runs the
`(Mul, Add-into)` kernel and yields 9.0 at every index, the same value the
materialize-then-combine reference produces — but the container-combine
`(Sub, Mul-into)` generic kernel is ill-formed (its body multiplies
`-dest[i]` by the whole `exp.rhs` vector, missing `[i]`), so the fused
dispatch produces no result at all there, refuting the universally
quantified fusion-equivalence claim. -/
theorem C1_fusion_scenarioB_and_illformed_SubMul :
    STOPImplDouble SrcOp.mul DestOp.addInto [1, 1, 1, 1] [2, 2, 2, 2] 4 =
      [9, 9, 9, 9]
  ∧ specTwoPass SrcOp.mul DestOp.addInto [1, 1, 1, 1] [2, 2, 2, 2] 4 =
      [9, 9, 9, 9]
  ∧ VVOPImplGen VSrc.sub DestOp.mulInto [2, 2] [5, 5] [3, 3] = none := by
  norm_num [STOPImplDouble, specTwoPass, VVOPImplGen, loopKernel, daxpy,
    idxMap, idxMapGo, fmaQ, srcFormula, destCombine]

/-- C2: the Tensor-family `Vector` overloads `operator-(scalar, vector)`
and `operator/(scalar, vector)` (part_002 lines 1867-1872 and 1881-1886)
evaluate to `a[i] - s` and `a[i] / s` — NOT the claimed `s - a[i]` and
`s / a[i]`: with `a[0] = 1` and `s = 5`, `s - a` yields `-4` where the
claim requires `4`, and with `a[0] = 2`, `s = 10`, `s / a` yields `1/5`
where the claim requires `5`. -/
theorem C2_scalar_minus_vector_wrong_operand_order :
    vectorScalarMinusVector 5 [1] = [1 - 5]
  ∧ vectorScalarMinusVector 5 [1] ≠ [5 - 1]
  ∧ vectorScalarDivVector 10 [2] = [2 / 10]
  ∧ vectorScalarDivVector 10 [2] ≠ [10 / 2] := by
  norm_num [vectorScalarMinusVector, vectorScalarDivVector,
    tensorSubAssignScalarD, tensorDivAssignScalar, daxpy, divS, idxMap,
    idxMapGo]

/-- C3: the generic fallback branch of the Tensor family's compound
subtraction calls `add` instead of `sub` (part_002 lines 1714 and 1728):
for a non-`double`/`float` element type, `dest -= other` with `dest = {5}`
and `other = {2}` produces `{7}`, not the claimed `{3}` (and
`dest -= 2` likewise produces `{7}`); the `double` branch does subtract. -/
theorem C3_subAssign_generic_dispatches_to_add :
    tensorSubAssignTensorGen [1] [5] [1] [2] = .ok [7]
  ∧ (7 : Rat) ≠ 5 - 2
  ∧ tensorSubAssignScalarGen [5] 2 = [7]
  ∧ tensorSubAssignTensorD [1] [5] [1] [2] = .ok [3] := by
  norm_num [tensorSubAssignTensorGen, tensorSubAssignScalarGen,
    tensorSubAssignTensorD, checkShape, addV, addS, daxpy, idxMap, idxMapGo,
    Bind.bind, Except.bind]

/-- C4: the MatrixVector family's `Vector::operator+=` performs no size
check and writes the destination on a size mismatch — `dest = {1,1}` of
size 2 with `src = {1,2,3}` of size 3 is silently overwritten to `{2,3}` —
whereas its sibling `operator-=` and the container-combine descriptor
construction do fail fast with the size-check error. -/
theorem C4_mv_plusAssign_skips_size_check :
    mvVecAddAssignVec [1, 1] [1, 2, 3] = [2, 3]
  ∧ mvVecAddAssignVec [1, 1] [1, 2, 3] ≠ [1, 1]
  ∧ mvVecSubAssignVec [1, 1] [1, 2, 3] = .error "ERROR IN SIZE CHECK"
  ∧ mvMakeVVOP VSrc.add [1, 1] [1, 2, 3] = .error "ERROR IN SIZE CHECK" := by
  norm_num [mvVecAddAssignVec, mvVecSubAssignVec, mvMakeVVOP, addV, subV,
    idxMap, idxMapGo]

/-- C7: the alloc-free-alloc round trip does work as claimed (final size
`m`, zero-filled, length and data pointer reset by `free`), but freeing an
already-freed dynamic tensor is NOT a no-op: `free()` nulls `data` yet
leaves `dataHolder.heapData` dangling, so the second `free()` passes the
very same heap pointer to `std::free` again — a double free. -/
theorem C7_free_on_freed_double_frees :
    tensorAlloc (blankTensor [0]) [2] 7 true =
      .ok ⟨[0], Ptr.heap 7, Ptr.heap 7, [0, 0], 2, [2]⟩
  ∧ tensorFree ⟨[0], Ptr.heap 7, Ptr.heap 7, [0, 0], 2, [2]⟩ =
      (⟨[0], Ptr.heap 7, Ptr.null, [0, 0], 0, []⟩, some (Ptr.heap 7))
  ∧ (⟨[0], Ptr.heap 7, Ptr.null, [0, 0], 0, []⟩ : TensorState).isAlloced = false
  ∧ tensorFree ⟨[0], Ptr.heap 7, Ptr.null, [0, 0], 0, []⟩ =
      (⟨[0], Ptr.heap 7, Ptr.null, [0, 0], 0, []⟩, some (Ptr.heap 7))
  ∧ tensorAlloc ⟨[0], Ptr.heap 7, Ptr.null, [0, 0], 0, []⟩ [3] 9 true =
      .ok ⟨[0], Ptr.heap 9, Ptr.heap 9, [0, 0, 0], 3, [3]⟩ := by
  norm_num [tensorAlloc, tensorFree, blankTensor, TensorState.isAlloced,
    TensorState.ctSize, List.replicate]

/-- C8: a failed aligned allocation in the MatrixVector storage is
silently ignored — `ContiguousStorage<T,0>::alloc` has already set
`_len = 5` (and `_alloced_size = 48`) before the attempt and merely
returns `false`, which `Vector::alloc` discards, leaving a container that
reports allocated with a null buffer; the Tensor family, by contrast, does
surface the failure by throwing `std::bad_alloc`. -/
theorem C8_mv_alloc_failure_silently_ignored :
    mvVecAlloc ⟨0, 0, none, []⟩ 5 0 [] false = ⟨5, 48, none, []⟩
  ∧ mvIsAlloc ⟨5, 48, none, []⟩ = true
  ∧ tensorAlloc (blankTensor [0]) [5] 1 false = .error "std::bad_alloc" := by
  norm_num [mvVecAlloc, mvAlloc, mvIsAlloc, mvAlignment, sizeofDouble,
    tensorAlloc, blankTensor, TensorState.isAlloced, TensorState.ctSize]

/-- C6 counterexample: a MatrixVector dynamic storage that is already
allocated (length 2) is NOT left unchanged by a second `alloc`: the call
unconditionally reallocates and the length becomes 3. -/
theorem C6_counterexample_mv_realloc :
    mvIsAlloc ⟨2, 16, some 1, [0, 0]⟩ = true
  ∧ (mvVecAlloc ⟨2, 16, some 1, [0, 0]⟩ 3 2 [5, 5, 5] true).len = 3
  ∧ mvVecAlloc ⟨2, 16, some 1, [0, 0]⟩ 3 2 [5, 5, 5] true ≠
      ⟨2, 16, some 1, [0, 0]⟩ := by
  norm_num [mvVecAlloc, mvAlloc, mvIsAlloc, mvAlignment, sizeofDouble]

/-- C6 amended: in the Tensor family `alloc` on an already-allocated
container does nothing at all, and the MatrixVector inline fixed-capacity
storage's `alloc` is always a no-op; the MatrixVector dynamic storage is
the exception exhibited by the counterexample. -/
theorem C6_alloc_idempotent_amended :
    (∀ (t : TensorState) (sh : List Nat) (fresh : Nat) (ok : Bool),
        t.isAlloced = true → tensorAlloc t sh fresh ok = .ok t)
  ∧ (∀ (st : MVFixed) (n : Nat), mvFixedAlloc st n = (st, true)) := by
  constructor
  · intro t sh fresh ok h
    simp [tensorAlloc, h]
  · intro st n
    rfl

/-- Witness for C6: the idempotence theorem applied at a concrete
allocated tensor. -/
theorem C6_alloc_idempotent_witness :
    (⟨[0], Ptr.heap 3, Ptr.heap 3, [1, 2], 2, [2]⟩ : TensorState).isAlloced
        = true
  ∧ tensorAlloc ⟨[0], Ptr.heap 3, Ptr.heap 3, [1, 2], 2, [2]⟩ [9] 4 true =
      .ok ⟨[0], Ptr.heap 3, Ptr.heap 3, [1, 2], 2, [2]⟩ :=
  ⟨by decide,
   C6_alloc_idempotent_amended.1 ⟨[0], Ptr.heap 3, Ptr.heap 3, [1, 2], 2, [2]⟩
     [9] 4 true (by decide)⟩

/-- C5: container assignment.  (a) With the destination allocated and the
realized shapes equal, `dest = src` copies every element of `src` into the
destination's own buffer (the result keeps `dest`'s pointers, so later
mutation of `src`'s buffer cannot affect it); (b) with differing realized
shapes of equal rank it fails with the size-mismatch error before any
write; (c) an unallocated dynamically-sized destination is first allocated
to `src`'s shape and then receives the copy. -/
theorem C5_assignment :
    (∀ (t other : TensorState) (fresh : Nat) (ok : Bool),
        t.isAlloced = true → t.shape = other.shape →
        t.store.length = t.size → other.store.length = other.size →
        t.size = other.size →
        tensorAssign t other fresh ok = .ok { t with store := other.store })
  ∧ (∀ (t other : TensorState) (fresh : Nat) (ok : Bool),
        t.isAlloced = true → t.shape.length = other.shape.length →
        t.shape ≠ other.shape →
        tensorAssign t other fresh ok = .error "SIZE MISMATCH ERROR")
  ∧ (∀ (t other : TensorState) (fresh : Nat),
        t.isAlloced = false → t.ctSize = 0 →
        other.store.length = other.size → other.size = other.shape.prod →
        tensorAssign t other fresh true =
          .ok { t with shape := other.shape, size := other.shape.prod,
                       heapMem := Ptr.heap fresh, dataPtr := Ptr.heap fresh,
                       store := other.store }) := by
  refine ⟨?_, ?_, ?_⟩
  · intro t other fresh ok hA hsh hT hO hsz
    have hmem : memcpyN t.store other.store other.size = other.store :=
      memcpyN_all _ _ _ (by rw [hT, hsz]) hO
    simp [tensorAssign, hA, checkShape, hsh, memcpyInto, hmem, Bind.bind,
      Except.bind]
  · intro t other fresh ok hA hlen hne
    simp [tensorAssign, hA, checkShape, hlen, hne, Bind.bind, Except.bind]
  · intro t other fresh hA hct hO hsz
    have hmem : memcpyN (List.replicate other.shape.prod 0) other.store
        other.size = other.store :=
      memcpyN_all _ _ _ (by simp [← hsz]) hO
    simp [tensorAssign, hA, tensorAlloc, hct, memcpyInto, hmem, Bind.bind,
      Except.bind]

/-- Witness for C5: concrete scenario C.  Assigning a shape-(2,3) tensor
into an allocated shape-(2,3) destination copies the six elements;
assigning it into a shape-(3,2) destination fails with the size-mismatch
error; assigning a dynamic size-2 vector into an unallocated dynamic
destination allocates (with a fresh buffer) and copies. -/
theorem C5_assignment_witness :
    (⟨[2, 3], Ptr.null, Ptr.static, [0, 0, 0, 0, 0, 0], 6, [2, 3]⟩ :
        TensorState).isAlloced = true
  ∧ tensorAssign ⟨[2, 3], Ptr.null, Ptr.static, [0, 0, 0, 0, 0, 0], 6, [2, 3]⟩
      ⟨[2, 3], Ptr.null, Ptr.static, [1, 2, 3, 4, 5, 6], 6, [2, 3]⟩ 0 true =
      .ok ⟨[2, 3], Ptr.null, Ptr.static, [1, 2, 3, 4, 5, 6], 6, [2, 3]⟩
  ∧ tensorAssign ⟨[3, 2], Ptr.null, Ptr.static, [0, 0, 0, 0, 0, 0], 6, [3, 2]⟩
      ⟨[2, 3], Ptr.null, Ptr.static, [1, 2, 3, 4, 5, 6], 6, [2, 3]⟩ 0 true =
      .error "SIZE MISMATCH ERROR"
  ∧ tensorAssign (blankTensor [0])
      ⟨[0], Ptr.heap 5, Ptr.heap 5, [4, 4], 2, [2]⟩ 9 true =
      .ok ⟨[0], Ptr.heap 9, Ptr.heap 9, [4, 4], 2, [2]⟩ :=
  ⟨by decide,
   C5_assignment.1 _ _ 0 true (by decide) (by decide) (by decide) (by decide)
     (by decide),
   C5_assignment.2.1 _ _ 0 true (by decide) (by decide) (by decide),
   C5_assignment.2.2 _ _ 9 (by decide) (by decide) (by decide) (by decide)⟩

/-- C9: ownership.  Copy construction of a dynamic tensor allocates a
fresh buffer (distinct from the source's) and duplicates the contents;
move construction transfers the heap buffer and leaves the moved-from
source with `size() = 0`, unallocated, and a nulled heap pointer; move
assignment does the same; moving a compile-time-sized tensor duplicates
the inline data and also empties the source. -/
theorem C9_copy_move_ownership :
    (∀ (other : TensorState) (p fresh : Nat),
        other.ctSize = 0 → other.heapMem = Ptr.heap p →
        other.store.length = other.size → other.size = other.shape.prod →
        fresh ≠ p →
        tensorCopy other fresh true =
          .ok ⟨other.ctDims, Ptr.heap fresh, Ptr.heap fresh, other.store,
               other.shape.prod, other.shape⟩
        ∧ Ptr.heap fresh ≠ other.heapMem)
  ∧ (∀ (other : TensorState) (p : Nat),
        other.ctSize = 0 → other.heapMem = Ptr.heap p →
        (tensorMove other).1.heapMem = Ptr.heap p
        ∧ (tensorMove other).1.store = other.store
        ∧ (tensorMove other).2.size = 0
        ∧ (tensorMove other).2.isAlloced = false
        ∧ (tensorMove other).2.heapMem = Ptr.null)
  ∧ (∀ (t other : TensorState) (p : Nat),
        t.ctDims = other.ctDims → other.ctSize = 0 →
        other.heapMem = Ptr.heap p →
        (tensorMoveAssign t other).1.heapMem = Ptr.heap p
        ∧ (tensorMoveAssign t other).1.dataPtr = Ptr.heap p
        ∧ (tensorMoveAssign t other).1.store = other.store
        ∧ (tensorMoveAssign t other).1.size = other.size
        ∧ (tensorMoveAssign t other).2.size = 0
        ∧ (tensorMoveAssign t other).2.isAlloced = false)
  ∧ (∀ other : TensorState, 0 < other.ctSize →
        (tensorMove other).1.store = other.store
        ∧ (tensorMove other).2.size = 0
        ∧ (tensorMove other).2.isAlloced = false) := by
  refine ⟨?_, ?_, ?_, ?_⟩
  · intro other p fresh hct hp hO hsz hfresh
    have hprod : other.ctDims.prod = 0 := by
      simpa [TensorState.ctSize] using hct
    have hmem : memcpyN (List.replicate other.shape.prod 0) other.store
        other.size = other.store :=
      memcpyN_all _ _ _ (by simp [← hsz]) hO
    constructor
    · simp [tensorCopy, tensorNew, tensorAlloc, tensorAssign, checkShape,
        memcpyInto, blankTensor, TensorState.isAlloced, TensorState.ctSize,
        hprod, hmem, Bind.bind, Except.bind]
    · rw [hp]
      simp [hfresh]
  · intro other p hct hp
    simp [tensorMove, hct, hp, TensorState.isAlloced]
  · intro t other p hcd hct hp
    have hfree : ((tensorFree t).1).ctSize = 0 := by
      simp [tensorFree, TensorState.ctSize, hcd]
      simpa [TensorState.ctSize] using hct
    simp [tensorMoveAssign, hfree, hp, TensorState.isAlloced]
  · intro other hct
    simp [tensorMove, hct, TensorState.isAlloced]

/-- Witness for C9 at a concrete dynamic vector of size 2 holding
`{8, 9}` with heap buffer 2 (fresh buffer 3 for the copy). -/
theorem C9_copy_move_ownership_witness :
    tensorCopy ⟨[0], Ptr.heap 2, Ptr.heap 2, [8, 9], 2, [2]⟩ 3 true =
      .ok ⟨[0], Ptr.heap 3, Ptr.heap 3, [8, 9], 2, [2]⟩
  ∧ (tensorMove ⟨[0], Ptr.heap 2, Ptr.heap 2, [8, 9], 2, [2]⟩).2.size = 0
  ∧ (tensorMove ⟨[0], Ptr.heap 2, Ptr.heap 2, [8, 9], 2, [2]⟩).2.isAlloced
        = false
  ∧ (tensorMove ⟨[0], Ptr.heap 2, Ptr.heap 2, [8, 9], 2, [2]⟩).1.heapMem
        = Ptr.heap 2 := by
  have h1 := C9_copy_move_ownership.1
    ⟨[0], Ptr.heap 2, Ptr.heap 2, [8, 9], 2, [2]⟩ 2 3 (by decide) (by decide)
    (by decide) (by decide) (by decide)
  have h2 := C9_copy_move_ownership.2.1
    ⟨[0], Ptr.heap 2, Ptr.heap 2, [8, 9], 2, [2]⟩ 2 (by decide) (by decide)
  exact ⟨h1.1, h2.2.2.1, h2.2.2.2.1, h2.1⟩

/-- C10: zero initialization.  Allocating an unallocated tensor zero-fills
the whole buffer (`std::fill_n(data, _size, 0)` ends both branches of
`alloc`): the compile-time-sized branch yields `_ctSize` zeros, the
dynamic branch `prod(shape)` zeros; default construction of a
compile-time-sized tensor runs exactly that allocation; and the
MatrixVector inline storage is value-initialized to zeros by its member
initializer. -/
theorem C10_fresh_containers_zero_initialized :
    (∀ (t : TensorState) (sh : List Nat) (fresh : Nat),
        t.isAlloced = false → 0 < t.ctSize →
        tensorAlloc t sh fresh true =
          .ok { t with shape := t.ctDims, size := t.ctSize,
                       dataPtr := Ptr.static,
                       store := List.replicate t.ctSize 0 })
  ∧ (∀ (t : TensorState) (sh : List Nat) (fresh : Nat),
        t.isAlloced = false → t.ctSize = 0 →
        tensorAlloc t sh fresh true =
          .ok { t with shape := sh, size := sh.prod,
                       heapMem := Ptr.heap fresh, dataPtr := Ptr.heap fresh,
                       store := List.replicate sh.prod 0 })
  ∧ (∀ cd : List Nat, 0 < cd.prod →
        tensorNew cd =
          .ok ⟨cd, Ptr.null, Ptr.static, List.replicate cd.prod 0, cd.prod,
               cd⟩)
  ∧ (∀ n : Nat, (mvFixedNew n).data = List.replicate n 0) := by
  refine ⟨?_, ?_, ?_, ?_⟩
  · intro t sh fresh h1 h2
    simp [tensorAlloc, h1, h2]
  · intro t sh fresh h1 h2
    simp [tensorAlloc, h1, h2]
  · intro cd h
    simp [tensorNew, h, tensorAlloc, blankTensor, TensorState.isAlloced,
      TensorState.ctSize, Nat.pos_iff_ne_zero.mp h]
  · intro n
    rfl

/-- Witness for C10: a `Tensor<double, 2, 2>` allocates to four zeros, a
dynamic vector allocated with runtime shape `{3}` to three zeros, default
construction of a `Tensor<double, 2>` yields two zeros, and a fixed
3-element MatrixVector storage starts as three zeros. -/
theorem C10_fresh_containers_zero_initialized_witness :
    tensorAlloc ⟨[2, 2], Ptr.null, Ptr.null, [], 0, []⟩ [] 0 true =
      .ok ⟨[2, 2], Ptr.null, Ptr.static, [0, 0, 0, 0], 4, [2, 2]⟩
  ∧ tensorAlloc (blankTensor [0]) [3] 5 true =
      .ok ⟨[0], Ptr.heap 5, Ptr.heap 5, [0, 0, 0], 3, [3]⟩
  ∧ tensorNew [2] = .ok ⟨[2], Ptr.null, Ptr.static, [0, 0], 2, [2]⟩
  ∧ (mvFixedNew 3).data = [0, 0, 0] :=
  ⟨C10_fresh_containers_zero_initialized.1
     ⟨[2, 2], Ptr.null, Ptr.null, [], 0, []⟩ [] 0 (by decide) (by decide),
   C10_fresh_containers_zero_initialized.2.1 (blankTensor [0]) [3] 5
     (by decide) (by decide),
   C10_fresh_containers_zero_initialized.2.2.1 [2] (by decide),
   C10_fresh_containers_zero_initialized.2.2.2 3⟩

end SwNumeric
